import Mathlib

/-!
Verification of the DermDetect session-state manager: a shallow embedding of
the patient/lesion data model, the persistence adapter, the inference-client
response handling, and the upload/compare orchestration workflows, together
with theorems settling the specification claims about them.

Conventions of the embedding:
* a JavaScript `Date` instant is modelled as a `Nat` (milliseconds since the
  epoch); the serialization of a `Date` to a string by the environment
  (`JSON.stringify` / `new Date(string)`) is modelled by a parameter pair
  `enc : Nat → String`, `dec : String → Nat` together with the round-trip
  contract `dec (enc t) = t` ("within serialization precision");
* a `File` object (binary handle) is modelled as `FileHandle`;
* `Date.now()` is passed in explicitly as a `now : Nat` argument;
* a thrown JavaScript `Error` is modelled as `Except String` carrying the
  message string.
-/

namespace DermDetect

/-- Binary handle: an in-memory reference to raw image bytes (a `File`). -/
structure FileHandle where
  fileName : String
  bytes : String
deriving DecidableEq

/-- `AnalysisResult` from the repository type declarations. -/
structure AnalysisResult where
  conditionName : String
  confidence : String
  description : String
  recommendations : List String
deriving DecidableEq

/-- `LesionImage` from the repository type declarations: the binary handle
`file` is optional (present only for images added this session) and the
`timestamp` is an instant (milliseconds). -/
structure LesionImage where
  id : String
  imageDataUrl : String
  file : Option FileHandle
  analysisResult : Option AnalysisResult
  timestamp : Nat
deriving DecidableEq

/-- `Patient` from the repository type declarations. -/
structure Patient where
  id : String
  patientId : Option String
  name : String
  dob : String
  gender : Option String
  bloodType : Option String
  existingConditions : Option String
  lesionImages : List LesionImage
deriving DecidableEq

/-- `User` from the repository type declarations. -/
structure User where
  id : String
  name : String
  email : String
  password : String
deriving DecidableEq

/-- `ComparisonResult` from the repository type declarations. -/
structure ComparisonResult where
  changeSummary : String
  keyObservations : List String
  recommendation : String
  updatedConditionAssessment : String
  postComparisonCondition : String
deriving DecidableEq

/-! ## Persistence adapter

The persistence effect first strips each image of its `file` property
(`lesionImages.map(({ file, ...rest }) => rest)`) and then serializes; on
load, `loadState` rehydrates every image timestamp from its stored string
form (`img.timestamp = new Date(img.timestamp)`), and a loaded image has no
`file` property. The stored shapes below are the serialized forms. -/

/-- Stored (serialized) form of a lesion image: no `file` field, the
timestamp held as a string. -/
structure StoredLesionImage where
  id : String
  imageDataUrl : String
  analysisResult : Option AnalysisResult
  timestamp : String
deriving DecidableEq

/-- Stored (serialized) form of a patient. -/
structure StoredPatient where
  id : String
  patientId : Option String
  name : String
  dob : String
  gender : Option String
  bloodType : Option String
  existingConditions : Option String
  lesionImages : List StoredLesionImage
deriving DecidableEq

/-- Serialize one image: drop the binary handle, stringify the timestamp. -/
def serializeImage (enc : Nat → String) (img : LesionImage) : StoredLesionImage :=
  ⟨img.id, img.imageDataUrl, img.analysisResult, enc img.timestamp⟩

/-- Serialize one patient (the `serializablePatients` mapping of the
persistence effect). -/
def serializePatient (enc : Nat → String) (p : Patient) : StoredPatient :=
  ⟨p.id, p.patientId, p.name, p.dob, p.gender, p.bloodType,
    p.existingConditions, p.lesionImages.map (serializeImage enc)⟩

/-- `saveState` for the `patients` key: the serialized patient collection. -/
def savePatients (enc : Nat → String) (ps : List Patient) : List StoredPatient :=
  ps.map (serializePatient enc)

/-- Rehydrate one stored image (`loadState` post-processing): the timestamp
string is turned back into an instant and there is no binary handle. -/
def rehydrateImage (dec : String → Nat) (img : StoredLesionImage) : LesionImage :=
  ⟨img.id, img.imageDataUrl, none, img.analysisResult, dec img.timestamp⟩

/-- Rehydrate one stored patient. -/
def rehydratePatient (dec : String → Nat) (sp : StoredPatient) : Patient :=
  ⟨sp.id, sp.patientId, sp.name, sp.dob, sp.gender, sp.bloodType,
    sp.existingConditions, sp.lesionImages.map (rehydrateImage dec)⟩

/-- `loadState` for the `patients` key applied to a stored collection. -/
def loadPatients (dec : String → Nat) (sps : List StoredPatient) : List Patient :=
  sps.map (rehydratePatient dec)

/-- An image with its binary handle removed (what a save/load round trip is
expected to preserve up to). -/
def stripImage (img : LesionImage) : LesionImage :=
  { img with file := none }

/-- A patient with every image binary handle removed. -/
def stripFile (p : Patient) : Patient :=
  { p with lesionImages := p.lesionImages.map stripImage }

/-! ## Session-state manager -/

/-- `handleUpdatePatient` (the `appendImage` merge path at the collection
level): `prev.map(p => p.id === updatedPatient.id ? updatedPatient : p)`.
Note the operation is total: an unmatched id leaves the collection as it was
and signals nothing. -/
def handleUpdatePatient (patients : List Patient) (updatedPatient : Patient) :
    List Patient :=
  patients.map (fun p => if p.id = updatedPatient.id then updatedPatient else p)

/-- The creation payload of `handleAddPatient`
(`Omit<Patient, 'id' | 'lesionImages'>`). -/
structure PatientData where
  name : String
  dob : String
  patientId : Option String
  gender : Option String
  bloodType : Option String
  existingConditions : Option String
deriving DecidableEq

/-- The patient record built by `handleAddPatient`: the id is derived from
the current time (`p${Date.now()}`) and the image history starts empty. -/
def newPatientFor (data : PatientData) (now : Nat) : Patient :=
  ⟨"p" ++ toString now, data.patientId, data.name, data.dob, data.gender,
    data.bloodType, data.existingConditions, []⟩

/-- `handleAddPatient`: prepend the freshly built patient to the sequence. -/
def handleAddPatient (patients : List Patient) (data : PatientData) (now : Nat) :
    List Patient :=
  newPatientFor data now :: patients

/-- The prepend step of `handleImageUpload`
(`lesionImages: [newLesionImage, ...patient.lesionImages]`), which is the
`appendImage` mutation of the specification. -/
def appendImage (p : Patient) (img : LesionImage) : Patient :=
  { p with lesionImages := img :: p.lesionImages }

/-! ## Upload workflow -/

/-- Result of one run of `handleImageUpload` over a single patient: either
the updated patient handed to `onUpdatePatient`, or the surfaced error
message of the catch branch. -/
inductive UploadResult where
  | failed (msg : String)
  | succeeded (updated : Patient)
deriving DecidableEq

/-- `handleImageUpload`: await `analyzeSkinCondition(file)`; on success build
the new `LesionImage` (fresh time-based id, encoded payload, live handle,
analysis result, current instant) and prepend it; a thrown error is caught
and its message surfaced. `analyze` and `encode` stand for the external
inference call and the data-URL encoding of the environment. -/
def handleImageUpload (patient : Patient) (file : FileHandle)
    (analyze : FileHandle → Except String AnalysisResult)
    (encode : FileHandle → String) (now : Nat) : UploadResult :=
  match analyze file with
  | Except.error e => UploadResult.failed e
  | Except.ok result =>
      UploadResult.succeeded
        (appendImage patient
          ⟨"img_" ++ toString now, encode file, some file, some result, now⟩)

/-- Observable outcome of the whole upload workflow against the patient
collection: the resulting collection, the surfaced error (the failed state),
and the argument of the `onUpdatePatient` (`appendImage`) call when one was
made. -/
structure UploadOutcome where
  patients : List Patient
  errorMsg : Option String
  appendCall : Option Patient
deriving DecidableEq

/-- The upload workflow at the collection level: on success the updated
patient is merged through `handleUpdatePatient`; on failure the collection
is untouched and no merge call is made. -/
def uploadWorkflow (patients : List Patient) (patient : Patient)
    (file : FileHandle) (analyze : FileHandle → Except String AnalysisResult)
    (encode : FileHandle → String) (now : Nat) : UploadOutcome :=
  match handleImageUpload patient file analyze encode now with
  | UploadResult.failed e => ⟨patients, some e, none⟩
  | UploadResult.succeeded updated =>
      ⟨handleUpdatePatient patients updated, none, some updated⟩

/-! ## Comparison workflow -/

/-- What the comparison workflow does with the inference client: either no
call at all, or one `compareLesions(file1, file2)` call with the two binary
handles actually passed. -/
inductive CompareAction where
  | noop
  | invoke (before after : FileHandle)
deriving DecidableEq

/-- `handleCompare`: look both selected ids up in `patient.lesionImages`;
for each found image take its live `file` handle if present, else decode its
data URL (`dataUrlToFile(imageDataUrl, "img1_"/"img2_" ++ id)`, supplied as
the `decode` parameter); pass the two handles to `compareLesions` in
selection order. Any missing id or missing image aborts with no call. -/
def handleCompare (patient : Patient) (compareId1 compareId2 : Option String)
    (decode : String → String → FileHandle) : CompareAction :=
  match compareId1, compareId2 with
  | some c1, some c2 =>
      match patient.lesionImages.find? (fun img => img.id == c1),
            patient.lesionImages.find? (fun img => img.id == c2) with
      | some image1, some image2 =>
          CompareAction.invoke
            (image1.file.getD (decode image1.imageDataUrl ("img1_" ++ image1.id)))
            (image2.file.getD (decode image2.imageDataUrl ("img2_" ++ image2.id)))
      | _, _ => CompareAction.noop
  | _, _ => CompareAction.noop

/-- The disabled condition of the Compare button:
`!compareId1 || !compareId2 || isComparing || compareId1 === compareId2`.
This is the local guard that keeps a same-id selection from ever reaching
`handleCompare`. -/
def compareButtonDisabled (compareId1 compareId2 : Option String)
    (isComparing : Bool) : Bool :=
  compareId1.isNone || compareId2.isNone || isComparing ||
    (compareId1 == compareId2)

/-- The comparison workflow as reachable from the UI: `handleCompare` runs
only when the Compare button is enabled. -/
def compareWorkflow (patient : Patient) (compareId1 compareId2 : Option String)
    (isComparing : Bool) (decode : String → String → FileHandle) :
    CompareAction :=
  if compareButtonDisabled compareId1 compareId2 isComparing then
    CompareAction.noop
  else
    handleCompare patient compareId1 compareId2 decode

/-! ## Inference-client response handling -/

/-- A JSON document, for describing the payload the external capability
returns. -/
inductive Json where
  | null
  | bool (b : Bool)
  | num (n : Int)
  | str (s : String)
  | arr (items : List Json)
  | obj (fields : List (String × Json))

/-- Whether a JSON document is an object carrying the given key. -/
def Json.hasField : Json → String → Bool
  | Json.obj fields, key => fields.any (fun f => f.fst == key)
  | _, _ => false

/-- The required fields of the `AnalysisResult` response schema. -/
def hasAnalysisRequired (j : Json) : Bool :=
  j.hasField "conditionName" && j.hasField "confidence" &&
    j.hasField "description" && j.hasField "recommendations"

/-- The required fields of the `ComparisonResult` response schema. -/
def hasComparisonRequired (j : Json) : Bool :=
  j.hasField "changeSummary" && j.hasField "keyObservations" &&
    j.hasField "recommendation" && j.hasField "updatedConditionAssessment" &&
    j.hasField "postComparisonCondition"

/-- The payload text the external capability returned, after the trim:
either it parses as JSON (`wellFormed`, holding the parsed document) or it
does not (`malformed`, holding the raw text). This models the outcome of
`JSON.parse(response.text.trim())`. -/
inductive ResponsePayload where
  | malformed (raw : String)
  | wellFormed (j : Json)

/-- Whether a payload is the unparseable case. -/
def ResponsePayload.isMalformed : ResponsePayload → Bool
  | ResponsePayload.malformed _ => true
  | ResponsePayload.wellFormed _ => false

/-- The response-handling tail of `analyzeSkinCondition`:
`JSON.parse(jsonText) as AnalysisResult` inside try/catch. A parse failure
throws the format error; a parsed document is returned as-is, with no field
validation (the cast is erased at runtime). -/
def analyzeHandleResponse : ResponsePayload → Except String Json
  | ResponsePayload.wellFormed j => Except.ok j
  | ResponsePayload.malformed _ =>
      Except.error "The AI returned an unexpected response format. Please try again."

/-- The response-handling tail of `compareLesions`, identical except for the
message. -/
def compareHandleResponse : ResponsePayload → Except String Json
  | ResponsePayload.wellFormed j => Except.ok j
  | ResponsePayload.malformed _ =>
      Except.error "The AI returned an unexpected response format for the comparison. Please try again."

/-- Whether an inference-client result is the thrown (error) case. -/
def exceptIsError : Except String Json → Bool
  | Except.error _ => true
  | Except.ok _ => false

/-! ## Authentication -/

/-- The slice of session state `handleSignUp` touches. -/
structure AuthState where
  users : List User
  isLoggedIn : Bool
deriving DecidableEq

/-- `handleSignUp`: reject a duplicate email with a message and change
nothing; otherwise append the one new user (time-based id) at the end of the
user list and set the logged-in flag (auto-login). The second component is
the returned error message. -/
def handleSignUp (st : AuthState) (name email password : String) (now : Nat) :
    AuthState × Option String :=
  if (st.users.find? (fun u => u.email == email)).isSome then
    (st, some "An account with this email already exists.")
  else
    (⟨st.users ++ [⟨"u" ++ toString now, name, email, password⟩], true⟩, none)

/-! ## Demo values (used by witnesses and counterexamples) -/

/-- A default patient for positional access. -/
def dummyPatient : Patient := ⟨"", none, "", "", none, none, none, []⟩

/-- A concrete binary handle. -/
def demoFile : FileHandle := ⟨"lesion.png", "rawbytes"⟩

/-- The first seeded mock patient. -/
def johnDoe : Patient :=
  ⟨"p1", some "JD-001", "John Doe", "1985-05-23", some "Male", some "O+",
    some "None reported", []⟩

/-- The second seeded mock patient. -/
def janeSmith : Patient := ⟨"p2", none, "Jane Smith", "1992-11-14", none, none, none, []⟩

/-- A patient whose id matches nothing in the demo collections. -/
def ghostPatient : Patient := ⟨"p99", none, "Ghost", "1999-09-09", none, none, none, []⟩

/-- An analyze stub that throws the response-format error. -/
def failingAnalyze : FileHandle → Except String AnalysisResult :=
  fun _ =>
    Except.error "The AI returned an unexpected response format. Please try again."

/-- A demonstration timestamp codec satisfying the round-trip contract:
encode an instant in unary, decode by length. -/
def encU (t : Nat) : String := String.mk (List.replicate t 'x')

/-- Decoder matching `encU`. -/
def decU (s : String) : Nat := s.length

/-- The round-trip contract holds for the demonstration codec. -/
theorem decU_encU (t : Nat) : decU (encU t) = t := by
  simp [decU, encU, String.length]

/-! ## Helper lemmas -/

/-- Round trip of one image: serialization followed by rehydration only
removes the binary handle, provided the timestamp codec round-trips. -/
theorem rehydrate_serialize_image (enc : Nat → String) (dec : String → Nat)
    (hinv : ∀ t, dec (enc t) = t) (img : LesionImage) :
    rehydrateImage dec (serializeImage enc img) = stripImage img := by
  simp [rehydrateImage, serializeImage, stripImage, hinv]

/-- Round trip of one patient. -/
theorem rehydrate_serialize_patient (enc : Nat → String) (dec : String → Nat)
    (hinv : ∀ t, dec (enc t) = t) (p : Patient) :
    rehydratePatient dec (serializePatient enc p) = stripFile p := by
  have himg : rehydrateImage dec ∘ serializeImage enc = stripImage :=
    funext (fun img => rehydrate_serialize_image enc dec hinv img)
  simp [rehydratePatient, serializePatient, stripFile, List.map_map, himg]

/-- An unmatched update is the identity on the collection. -/
theorem update_no_match_eq (patients : List Patient) (updatedPatient : Patient)
    (hno : ∀ p ∈ patients, p.id ≠ updatedPatient.id) :
    handleUpdatePatient patients updatedPatient = patients := by
  induction patients with
  | nil => rfl
  | cons q qs ih =>
      have hq : q.id ≠ updatedPatient.id := hno q (by simp)
      have hqs : handleUpdatePatient qs updatedPatient = qs :=
        ih (fun p hp => hno p (by simp [hp]))
      simpa [handleUpdatePatient, hq] using hqs

/-! ## Claim theorems -/

/-- C1: whenever the analyze call throws, the upload workflow ends in the
failed state with the thrown message surfaced, `appendImage`
(`onUpdatePatient`) is never called, and the whole patient collection — in
particular the target patient and its `lesionImages` sequence — is exactly
what it was before the workflow ran. -/
theorem c1_analyze_failure_leaves_state_unchanged
    (patients : List Patient) (patient : Patient) (file : FileHandle)
    (analyze : FileHandle → Except String AnalysisResult)
    (encode : FileHandle → String) (now : Nat) (msg : String)
    (hfail : analyze file = Except.error msg) :
    (uploadWorkflow patients patient file analyze encode now).patients = patients
    ∧ (uploadWorkflow patients patient file analyze encode now).errorMsg = some msg
    ∧ (uploadWorkflow patients patient file analyze encode now).appendCall = none := by
  simp [uploadWorkflow, handleImageUpload, hfail]

/-- C1 witness: the theorem at a concrete collection and a concretely
failing analyze call. -/
theorem c1_witness :
    (uploadWorkflow [johnDoe, janeSmith] johnDoe demoFile failingAnalyze
        (fun f => f.bytes) 1000).patients = [johnDoe, janeSmith]
    ∧ (uploadWorkflow [johnDoe, janeSmith] johnDoe demoFile failingAnalyze
        (fun f => f.bytes) 1000).errorMsg =
        some "The AI returned an unexpected response format. Please try again."
    ∧ (uploadWorkflow [johnDoe, janeSmith] johnDoe demoFile failingAnalyze
        (fun f => f.bytes) 1000).appendCall = none :=
  c1_analyze_failure_leaves_state_unchanged [johnDoe, janeSmith] johnDoe
    demoFile failingAnalyze (fun f => f.bytes) 1000
    "The AI returned an unexpected response format. Please try again." rfl

/-- C2: saving the patient collection (binary handles stripped, timestamps
stringified) and reloading it (timestamps rehydrated) yields the collection
equal to the original except that every image binary handle is absent,
provided the timestamp string codec reconstructs the same instant. -/
theorem c2_save_load_roundtrip (enc : Nat → String) (dec : String → Nat)
    (hinv : ∀ t, dec (enc t) = t) (ps : List Patient) :
    loadPatients dec (savePatients enc ps) = ps.map stripFile
    ∧ ∀ p ∈ loadPatients dec (savePatients enc ps),
        ∀ img ∈ p.lesionImages, img.file = none := by
  have hp : rehydratePatient dec ∘ serializePatient enc = stripFile :=
    funext (fun p => rehydrate_serialize_patient enc dec hinv p)
  have hmain : loadPatients dec (savePatients enc ps) = ps.map stripFile := by
    simp [loadPatients, savePatients, List.map_map, hp]
  refine ⟨hmain, ?_⟩
  intro p hmem img himg
  rw [hmain] at hmem
  obtain ⟨q, _, rfl⟩ := List.mem_map.mp hmem
  simp only [stripFile] at himg
  obtain ⟨i, _, rfl⟩ := List.mem_map.mp himg
  rfl

/-- A patient with a nonempty image history, for the round-trip witness. -/
def demoLoadedPatient : Patient :=
  ⟨"p9", some "JS-9", "Jane Smith", "1992-11-14", some "Female", none, none,
    [⟨"img_1", "data:image/png;base64,AAA", some demoFile,
        some ⟨"Eczema", "High", "dry patch", ["see a doctor"]⟩, 42⟩]⟩

/-- C2 witness: the theorem at the demonstration codec and a concrete
collection holding an image with a live binary handle. -/
theorem c2_witness :
    loadPatients decU (savePatients encU [demoLoadedPatient]) =
      [demoLoadedPatient].map stripFile :=
  (c2_save_load_roundtrip encU decU decU_encU [demoLoadedPatient]).1

/-- C8: any sequence of `appendImage` calls against any starting history
leaves `lesionImages` in reverse insertion order — the images appended in
this run, reversed (last appended first), followed by the starting
history. -/
theorem c8_append_sequence_reverse_insertion
    (p : Patient) (imgs : List LesionImage) :
    (imgs.foldl appendImage p).lesionImages = imgs.reverse ++ p.lesionImages := by
  induction imgs generalizing p with
  | nil => simp
  | cons i is ih =>
      simp [List.foldl_cons, ih, appendImage]

/-- C3: when both selected ids resolve to images of the patient and the ids
differ, the compare call receives exactly two handles, in selection order
(first-selected as before, second-selected as after) and never reordered by
timestamp — the hypotheses put no constraint on the timestamps — with each
handle being the image live file if present and otherwise the handle decoded
from its encoded payload. -/
theorem c3_compare_selection_order
    (patient : Patient) (c1 c2 : String)
    (decode : String → String → FileHandle) (image1 image2 : LesionImage)
    (h1 : patient.lesionImages.find? (fun img => img.id == c1) = some image1)
    (h2 : patient.lesionImages.find? (fun img => img.id == c2) = some image2)
    (hne : c1 ≠ c2) :
    compareWorkflow patient (some c1) (some c2) false decode =
      CompareAction.invoke
        (image1.file.getD (decode image1.imageDataUrl ("img1_" ++ image1.id)))
        (image2.file.getD (decode image2.imageDataUrl ("img2_" ++ image2.id))) := by
  simp [compareWorkflow, compareButtonDisabled, handleCompare, h1, h2, hne]

/-- The newer image of the specification scenario for C3 (t = 200, live
handle absent as after a reload). -/
def imgT200 : LesionImage := ⟨"img_200", "urlAfter", none, none, 200⟩

/-- The older image of the specification scenario for C3 (t = 100, live
handle present). -/
def imgT100 : LesionImage :=
  ⟨"img_100", "urlBefore", some ⟨"live100", "d100"⟩, none, 100⟩

/-- The scenario patient: history is most-recent-first, so the newer image
sits at index 0. -/
def scenarioPatient : Patient :=
  ⟨"p3", none, "P", "2000-01-01", none, none, none, [imgT200, imgT100]⟩

/-- A concrete decode stub for the witnesses. -/
def demoDecode (dataUrl filename : String) : FileHandle := ⟨filename, dataUrl⟩

/-- C3 witness: selecting the older image first and the newer second passes
(before = handle of img 100, after = handle of img 200), against sequence
order. -/
theorem c3_witness :
    compareWorkflow scenarioPatient (some "img_100") (some "img_200") false
        demoDecode =
      CompareAction.invoke
        (imgT100.file.getD (demoDecode imgT100.imageDataUrl ("img1_" ++ imgT100.id)))
        (imgT200.file.getD (demoDecode imgT200.imageDataUrl ("img2_" ++ imgT200.id))) :=
  c3_compare_selection_order scenarioPatient "img_100" "img_200" demoDecode
    imgT100 imgT200 (by decide) (by decide) (by decide)

/-- C5: a selection with the same id in both slots never reaches the
inference client: the Compare button guard rejects it locally, whatever the
patient, the id, the comparing flag or the decoder. -/
theorem c5_same_id_rejected_before_inference
    (patient : Patient) (s : String) (isComparing : Bool)
    (decode : String → String → FileHandle) :
    compareWorkflow patient (some s) (some s) isComparing decode =
      CompareAction.noop := by
  simp [compareWorkflow, compareButtonDisabled]

/-- C4 counterexample: the empty JSON object is parseable JSON that is
missing every required field of the `AnalysisResult` schema, yet the analyze
response handling returns it as a success instead of failing with the
response-format error — so "fails if and only if not parseable or missing a
required field" is false in the missing-field direction. -/
theorem c4_counterexample :
    analyzeHandleResponse (ResponsePayload.wellFormed (Json.obj [])) =
      Except.ok (Json.obj [])
    ∧ hasAnalysisRequired (Json.obj []) = false :=
  ⟨rfl, rfl⟩

/-- C4 amended: both the analyze and the compare response handling fail with
the response-format error exactly when the payload is not parseable JSON;
required-field conformance is requested of the external capability through
the response schema but never validated locally. -/
theorem c4_format_error_iff_unparseable (r : ResponsePayload) :
    exceptIsError (analyzeHandleResponse r) = ResponsePayload.isMalformed r
    ∧ exceptIsError (compareHandleResponse r) = ResponsePayload.isMalformed r := by
  cases r <;>
    simp [analyzeHandleResponse, compareHandleResponse, exceptIsError,
      ResponsePayload.isMalformed]

/-- C6 counterexample: updating with a patient whose id matches nothing in
the collection does not fail with any `PatientNotFoundError` — the update
operation is total, returns normally, and leaves the collection unchanged;
no error value exists anywhere in its result. -/
theorem c6_counterexample :
    handleUpdatePatient [johnDoe, janeSmith] ghostPatient = [johnDoe, janeSmith] := by
  decide

/-- C6 amended: an update whose patient id matches no patient in the
collection is a silent no-op — the collection is returned unchanged and no
error of any kind is produced (the result type carries no error channel). -/
theorem c6_no_match_is_silent_noop
    (patients : List Patient) (updatedPatient : Patient)
    (hno : ∀ p ∈ patients, p.id ≠ updatedPatient.id) :
    handleUpdatePatient patients updatedPatient = patients :=
  update_no_match_eq patients updatedPatient hno

/-- C6 witness: the amended theorem at a concrete one-patient collection and
an unmatched update. -/
theorem c6_witness :
    handleUpdatePatient [johnDoe] ghostPatient = [johnDoe] :=
  c6_no_match_is_silent_noop [johnDoe] ghostPatient (by decide)

/-- An existing patient whose id collides with the time-derived id `p5`. -/
def collidingPatient : Patient :=
  ⟨"p5", none, "Old Patient", "1970-01-01", none, none, none, []⟩

/-- A creation payload with nonempty name and dob. -/
def demoData : PatientData :=
  ⟨"New Patient", "2001-02-03", none, none, none, none⟩

/-- C7 counterexample: with nonempty name and dob, adding a patient at
instant 5 to a collection already holding a patient with id `p5` produces
two patients with the same id — the time-derived id is not checked against
existing ids, so the assigned id is not collision-free. -/
theorem c7_counterexample :
    List.map Patient.id (handleAddPatient [collidingPatient] demoData 5) =
      ["p5", "p5"] := by
  decide

/-- C7 amended: a patient creation with nonempty name and dob builds the new
patient from the payload with an empty history and the time-derived id
`p<now>`, places it at position 0, and keeps all previously existing
patients in their relative order; the id is fresh only under the extra
hypothesis that no existing patient already carries `p<now>`. -/
theorem c7_add_patient_prepends
    (patients : List Patient) (data : PatientData) (now : Nat)
    (hname : data.name ≠ "") (hdob : data.dob ≠ "")
    (hfresh : "p" ++ toString now ∉ patients.map Patient.id) :
    handleAddPatient patients data now = newPatientFor data now :: patients
    ∧ (newPatientFor data now).name = data.name
    ∧ (newPatientFor data now).dob = data.dob
    ∧ (newPatientFor data now).lesionImages = []
    ∧ (newPatientFor data now).id ∉ patients.map Patient.id :=
  ⟨rfl, rfl, rfl, rfl, hfresh⟩

/-- C7 witness: the amended theorem at a concrete collection and an instant
whose derived id is unused. -/
theorem c7_witness :
    handleAddPatient [collidingPatient] demoData 7 =
      newPatientFor demoData 7 :: [collidingPatient]
    ∧ (newPatientFor demoData 7).name = demoData.name
    ∧ (newPatientFor demoData 7).dob = demoData.dob
    ∧ (newPatientFor demoData 7).lesionImages = []
    ∧ (newPatientFor demoData 7).id ∉ [collidingPatient].map Patient.id :=
  c7_add_patient_prepends [collidingPatient] demoData 7
    (by decide) (by decide) (by decide)

/-- C9: a patient update is frame-exact — the length is preserved, every
position whose patient id differs from the updated id holds its old patient
unchanged, every position whose patient id equals the updated id holds the
updated patient, and when no id matches the whole collection is returned
unchanged (and the operation, being total, raises nothing). -/
theorem c9_update_patient_frame
    (patients : List Patient) (updatedPatient : Patient) :
    (handleUpdatePatient patients updatedPatient).length = patients.length
    ∧ (∀ i, i < patients.length →
        (patients.getD i dummyPatient).id ≠ updatedPatient.id →
        (handleUpdatePatient patients updatedPatient).getD i dummyPatient =
          patients.getD i dummyPatient)
    ∧ (∀ i, i < patients.length →
        (patients.getD i dummyPatient).id = updatedPatient.id →
        (handleUpdatePatient patients updatedPatient).getD i dummyPatient =
          updatedPatient)
    ∧ ((∀ p ∈ patients, p.id ≠ updatedPatient.id) →
        handleUpdatePatient patients updatedPatient = patients) := by
  have hidx : ∀ i, i < patients.length →
      (handleUpdatePatient patients updatedPatient).getD i dummyPatient =
        (if (patients.getD i dummyPatient).id = updatedPatient.id then
          updatedPatient else patients.getD i dummyPatient) := by
    intro i hi
    rw [List.getD_eq_getElem?_getD, List.getD_eq_getElem?_getD,
      handleUpdatePatient, List.getElem?_map, List.getElem?_eq_getElem hi]
    simp
  refine ⟨by simp [handleUpdatePatient], ?_, ?_, ?_⟩
  · intro i hi hne
    rw [hidx i hi, if_neg hne]
  · intro i hi heq
    rw [hidx i hi, if_pos heq]
  · exact update_no_match_eq patients updatedPatient

/-- A renaming update for the second seeded patient. -/
def janeUpdated : Patient :=
  ⟨"p2", none, "Jane Smith-Jones", "1992-11-14", none, none, none, []⟩

/-- C9 witness: the theorem at a concrete two-patient collection, exercised
at the untouched position, the replaced position, and a fully unmatched
update. -/
theorem c9_witness :
    (handleUpdatePatient [johnDoe, janeSmith] janeUpdated).getD 0 dummyPatient =
      johnDoe
    ∧ (handleUpdatePatient [johnDoe, janeSmith] janeUpdated).getD 1 dummyPatient =
        janeUpdated
    ∧ handleUpdatePatient [janeSmith] ghostPatient = [janeSmith] := by
  refine ⟨?_, ?_, ?_⟩
  · exact (c9_update_patient_frame [johnDoe, janeSmith] janeUpdated).2.1 0
      (by decide) (by decide)
  · exact (c9_update_patient_frame [johnDoe, janeSmith] janeUpdated).2.2.1 1
      (by decide) (by decide)
  · exact (c9_update_patient_frame [janeSmith] ghostPatient).2.2.2 (by decide)

/-- C10: signing up with an email absent from the user set appends exactly
one new user carrying the given name, email and password at the end of the
user list, sets the logged-in flag (auto-login) and reports no error; with
an email already present it returns the duplicate-account message and leaves
the user set and the logged-in flag exactly as they were. -/
theorem c10_signup_append_or_reject
    (st : AuthState) (name email password : String) (now : Nat) :
    ((st.users.find? (fun u => u.email == email)).isSome = false →
      handleSignUp st name email password now =
        (⟨st.users ++ [⟨"u" ++ toString now, name, email, password⟩], true⟩, none))
    ∧ ((st.users.find? (fun u => u.email == email)).isSome = true →
      handleSignUp st name email password now =
        (st, some "An account with this email already exists.")) := by
  constructor
  · intro h
    simp [handleSignUp, h]
  · intro h
    simp [handleSignUp, h]

/-- The seeded default user. -/
def defaultDoctor : User := ⟨"user_default_doctor", "Dr. Clinic", "doctor@clinic.com", "12345"⟩

/-- C10 witness: the theorem exercised on a fresh email (appends one user
and logs in) and on a duplicate email (unchanged state, error message). -/
theorem c10_witness :
    handleSignUp ⟨[defaultDoctor], false⟩ "Ann Lee" "ann@x.com" "pw" 3 =
      (⟨[defaultDoctor, ⟨"u3", "Ann Lee", "ann@x.com", "pw"⟩], true⟩, none)
    ∧ handleSignUp ⟨[defaultDoctor], false⟩ "Eve" "doctor@clinic.com" "pw2" 4 =
        (⟨[defaultDoctor], false⟩, some "An account with this email already exists.") := by
  refine ⟨?_, ?_⟩
  · have h := (c10_signup_append_or_reject ⟨[defaultDoctor], false⟩ "Ann Lee"
      "ann@x.com" "pw" 3).1 (by decide)
    simpa using h
  · have h := (c10_signup_append_or_reject ⟨[defaultDoctor], false⟩ "Eve"
      "doctor@clinic.com" "pw2" 4).2 (by decide)
    simpa using h

end DermDetect
